import Mathlib

/-!
Verification development for the Deutsch_Coach lesson-generation core
(src/unnamed/part_000, together with the domain types in src/types.ts).

The TypeScript source is embedded shallowly:
* JavaScript objects with optional fields become structures with `Option` fields.
* `JSON.parse` is a platform primitive, not repository code; it is taken as an
  abstract parameter `j : String -> Option RawPayload` of the generation model,
  `none` standing for a thrown `SyntaxError`.
* The network call `ai.models.generateContent` is external input; each of the
  three retry attempts is driven by a `ModelCallOutcome` value describing what
  the call did (threw, or returned a response whose `text` field is `t`).
* JavaScript string `length` counts UTF-16 units and `\s` covers a slightly
  larger whitespace set than `Char.isWhitespace`; the embedding uses Lean
  code points and `Char.isWhitespace`, the standard identification.
-/

namespace DeutschCoach

/-- CEFR levels, from `LanguageLevel` in src/types.ts line 1. -/
inductive LanguageLevel
  | A0
  | A1
  | A2
  | B1

deriving instance DecidableEq, Repr for LanguageLevel

/-- Wire-format vocabulary entry, fields as produced by the model
(keys `de`, `en`, `hi`, `ex`); any field can be absent at runtime. -/
structure RawVocab where
  de : Option String
  en : Option String
  hi : Option String
  ex : Option String

deriving instance DecidableEq, Repr for RawVocab

/-- Wire-format comprehension question (keys `qu`, `ops`, `ans`, `exp`). -/
structure RawQuestion where
  qu : Option String
  ops : Option (List String)
  ans : Option Int
  exp : Option String

deriving instance DecidableEq, Repr for RawQuestion

/-- Wire-format lesson payload: the object produced by `JSON.parse` on the
model response (compact keys, part_000 lines 148-188). -/
structure RawPayload where
  t : Option String
  l : Option String
  voc : Option (List RawVocab)
  txt : Option String
  txt_tr : Option String
  q : Option (List RawQuestion)
  wr : Option String
  pts : Option (List String)
  lis : Option String

deriving instance DecidableEq, Repr for RawPayload

/-- Domain vocabulary card, from `VocabularyCard` in src/types.ts.  The
mapper copies raw fields without defaulting, so absent raw fields stay
absent; the fields are therefore `Option` in the runtime-faithful model. -/
structure VocabularyCard where
  german : Option String
  englishExplanation : Option String
  hindiTranslation : Option String
  exampleSentence : Option String

deriving instance DecidableEq, Repr for VocabularyCard

/-- Domain quiz question, from `QuizQuestion` in src/types.ts. -/
structure QuizQuestion where
  question : Option String
  options : Option (List String)
  correctAnswer : Option Int
  explanation : Option String

deriving instance DecidableEq, Repr for QuizQuestion

/-- Domain lesson object, from `LessonContent` in src/types.ts.  Optional
TypeScript fields are `Option`; `vocabulary` is non-optional in the
interface and always assigned an array by the mapper. -/
structure LessonContent where
  topic : String
  level : String
  vocabulary : List VocabularyCard
  readingText : Option String
  readingTextTranslation : Option String
  readingQuestions : Option (List QuizQuestion)
  writingPrompt : Option String
  writingPoints : Option (List String)
  listeningScenario : Option String

deriving instance DecidableEq, Repr for LessonContent

/-- JavaScript `a || d` for string-valued fields: `undefined` and the empty
string are falsy, any other string is returned unchanged. -/
def jsOrString (v : Option String) (d : String) : String :=
  match v with
  | none => d
  | some s => if s = "" then d else s

/-- JavaScript `a || []` for array-valued fields: `undefined` becomes the
empty array, an array (empty arrays are truthy) is returned unchanged. -/
def jsOrList {α : Type} (v : Option (List α)) : List α :=
  match v with
  | none => []
  | some l => l

/-- `mapRawToLesson` (part_000 lines 29-51): rename the compact wire fields
to the domain field names.  `raw.t` and `raw.l` are defaulted through `||`,
`voc` and `q` are defaulted to `[]` and mapped (so `readingQuestions` is
always assigned an array value), the remaining fields are copied as is. -/
def mapRawToLesson (raw : RawPayload) : LessonContent :=
  { topic := jsOrString raw.t "Lesson"
    level := jsOrString raw.l "A1"
    vocabulary := (jsOrList raw.voc).map fun v =>
      { german := v.de
        englishExplanation := v.en
        hindiTranslation := v.hi
        exampleSentence := v.ex }
    readingText := raw.txt
    readingTextTranslation := raw.txt_tr
    readingQuestions := some ((jsOrList raw.q).map fun qn =>
      { question := qn.qu
        options := qn.ops
        correctAnswer := qn.ans
        explanation := qn.exp })
    writingPrompt := raw.wr
    writingPoints := raw.pts
    listeningScenario := raw.lis }

/-- State machine for JavaScript `s.split(/\s+/)`: `none` while skipping a
whitespace run, `some cur` while accumulating the current token (reversed). -/
def jsSplitWsAux : Option (List Char) → List Char → List String
  | none, [] => [""]
  | some cur, [] => [String.mk cur.reverse]
  | none, c :: rest =>
    if c.isWhitespace then jsSplitWsAux none rest
    else jsSplitWsAux (some [c]) rest
  | some cur, c :: rest =>
    if c.isWhitespace then String.mk cur.reverse :: jsSplitWsAux none rest
    else jsSplitWsAux (some (c :: cur)) rest

/-- JavaScript `s.split(/\s+/)`: pieces between maximal whitespace runs,
with an empty leading piece when the string starts with whitespace and an
empty trailing piece when it ends with whitespace. -/
def jsSplitWs (s : String) : List String :=
  jsSplitWsAux (some []) s.data

/-- A value read from or stored in the `wordFreq` object of
`validateResponse`: a number, or a truthy non-numeric value (an inherited
`Object.prototype` member, or a string grown from one by `+ 1`).  Every
non-numeric value that arises here converts to NaN, so its comparison with
8 is false. -/
inductive FreqVal
  | num : Nat → FreqVal
  | nonNum : FreqVal

deriving instance DecidableEq, Repr for FreqVal

/-- The property names a fresh object literal inherits from
`Object.prototype`; looking any of them up on `wordFreq = {}` yields a
truthy function or object rather than undefined.  Property lookup is
case-sensitive, so of these only the all-lowercase `constructor` and
`__proto__` can actually be produced by the lowercased word list. -/
def objectProtoProps : List String :=
  ["constructor", "hasOwnProperty", "isPrototypeOf", "propertyIsEnumerable",
   "toLocaleString", "toString", "valueOf", "__defineGetter__",
   "__defineSetter__", "__lookupGetter__", "__lookupSetter__", "__proto__"]

/-- Reading `wordFreq[word]` where `own` holds the own properties: an own
property if one was stored, otherwise the inherited `Object.prototype`
member for its property names, otherwise undefined (`none`). -/
def freqLookup (own : String → Option FreqVal) (w : String) : Option FreqVal :=
  match own w with
  | some v => some v
  | none => if w ∈ objectProtoProps then some FreqVal.nonNum else none

/-- `(wordFreq[word] || 0) + 1`: undefined and the falsy 0 become 0 and
then 1; a positive number increments; a truthy non-numeric value
concatenates with 1 into a string, again truthy and non-numeric. -/
def freqBump : Option FreqVal → FreqVal
  | none => FreqVal.num 1
  | some (FreqVal.num k) => FreqVal.num (k + 1)
  | some FreqVal.nonNum => FreqVal.nonNum

/-- Storing `wordFreq[word] = v`: the inherited `__proto__` accessor
ignores a non-object value, so that key is never shadowed; every other key
(the `Object.prototype` data properties included) becomes an own
property. -/
def freqWrite (own : String → Option FreqVal) (w : String) (v : FreqVal) :
    String → Option FreqVal :=
  if w = "__proto__" then own else fun x => if x = w then some v else own x

/-- `wordFreq[word] > 8`: true only for a numeric value above 8; undefined
and every non-numeric value here convert to NaN, and NaN comparisons are
false. -/
def freqAbove8 : Option FreqVal → Bool
  | some (FreqVal.num k) => 8 < k
  | some FreqVal.nonNum => false
  | none => false

/-- The repetition loop of `validateResponse` (part_000 lines 65-75): for
each word longer than 3 characters, re-store `(wordFreq[word] || 0) + 1`
and return `false` as soon as the re-read value compares above 8.  The
state `own` holds the own properties of `wordFreq`, initially none. -/
def repetitionOk (own : String → Option FreqVal) : List String → Bool
  | [] => true
  | w :: ws =>
    if 3 < w.length then
      let own2 := freqWrite own w (freqBump (freqLookup own w))
      if freqAbove8 (freqLookup own2 w) then false
      else repetitionOk own2 ws
    else repetitionOk own ws

/-- JavaScript `toLowerCase` (part_000 line 65), modelled as the
character-wise lowering that `String.toLower` performs, written as a
structural map over the character list. -/
def jsToLower (s : String) : String :=
  String.mk (s.data.map Char.toLower)

/-- Level-dependent word-count ceiling (part_000 line 58). -/
def maxWords (level : LanguageLevel) : Nat :=
  if level = LanguageLevel.A0 then 60 else 150

/-- Reading-text checks of `validateResponse` (part_000 lines 56-76): with
no reading text, or an empty one (falsy in `if (raw.txt)`), the checks are
skipped; otherwise the whitespace-split word count must not pass the level
ceiling and the repetition loop must not trip. -/
def txtCheck (txt : Option String) (level : LanguageLevel) : Bool :=
  match txt with
  | none => true
  | some s =>
    if s = "" then true
    else
      if maxWords level < (jsSplitWs s).length then false
      else repetitionOk (fun _ => none) (jsSplitWs (jsToLower s))

/-- Vocabulary check of `validateResponse` (part_000 lines 79-82):
`!raw.voc || raw.voc.length === 0` rejects. -/
def vocCheck (voc : Option (List RawVocab)) : Bool :=
  match voc with
  | none => false
  | some l => !l.isEmpty

/-- `validateResponse` (part_000 lines 54-85).  The source returns `false`
from whichever check fails first and `true` at the end, which for a pure
boolean is the conjunction of the two check groups. -/
def validateResponse (raw : RawPayload) (level : LanguageLevel) : Bool :=
  txtCheck raw.txt level && vocCheck raw.voc

/-- The backtick character, code point 96. -/
def bq : Char := Char.ofNat 96

/-- The three-backtick fence marker. -/
def fence : List Char := [bq, bq, bq]

/-- The tagged fence opener, seven characters. -/
def fenceJson : List Char := [bq, bq, bq, 'j', 's', 'o', 'n']

/-- Drop trailing whitespace of a character list. -/
def dropTrailingWs (cs : List Char) : List Char :=
  (cs.reverse.dropWhile Char.isWhitespace).reverse

/-- JavaScript `String.prototype.trim` on a character list. -/
def trimChars (cs : List Char) : List Char :=
  dropTrailingWs (cs.dropWhile Char.isWhitespace)

/-- `.replace(/\s*` + three backticks + `$/, "")` (part_000 lines 196 and
198): when the text ends with a fence, remove it together with the
whitespace run directly before it; otherwise the regex does not match. -/
def stripTrailingFence (cs : List Char) : List Char :=
  if List.isSuffixOf fence cs then dropTrailingWs (cs.take (cs.length - 3))
  else cs

/-- The cleanup block of `generateLesson` (part_000 lines 193-199): trim,
then strip a leading tagged or untagged fence opener with the whitespace
after it, then strip a trailing fence. -/
def cleanTextChars (cs0 : List Char) : List Char :=
  let cs := trimChars cs0
  if List.isPrefixOf fenceJson cs then
    stripTrailingFence ((cs.drop 7).dropWhile Char.isWhitespace)
  else if List.isPrefixOf fence cs then
    stripTrailingFence ((cs.drop 3).dropWhile Char.isWhitespace)
  else cs

/-- String-level wrapper for the cleanup block. -/
def cleanText (s : String) : String :=
  String.mk (cleanTextChars s.data)

/-- What one `ai.models.generateContent` call did: threw a transport error,
or returned a response whose `text` field is `t` (possibly absent). -/
inductive ModelCallOutcome
  | err : ModelCallOutcome
  | ok : Option String → ModelCallOutcome

deriving instance DecidableEq, Repr for ModelCallOutcome

/-- One iteration of the retry loop of `generateLesson` (part_000 lines
137-222), parameterised by the `JSON.parse` model `j` and whether this is
the final attempt (`attempt === 2`).  `some r` means the iteration returned
`r` from `generateLesson`; `none` means the loop moves to the next attempt
(or, on the final attempt, falls through to the `return null` after the
loop).  A thrown transport error and a `JSON.parse` failure land in the
same `catch` block; a missing or empty `response.text` silently skips the
body. -/
def attemptStep (j : String → Option RawPayload) (level : LanguageLevel)
    (o : ModelCallOutcome) (isLast : Bool) : Option (Option LessonContent) :=
  match o with
  | .err => if isLast then some none else none
  | .ok t =>
    match t with
    | none => none
    | some s =>
      if s = "" then none
      else
        match j (cleanText s) with
        | none => if isLast then some none else none
        | some raw =>
          if validateResponse raw level then some (some (mapRawToLesson raw))
          else if isLast then some (some (mapRawToLesson raw)) else none

/-- `generateLesson` (part_000 lines 87-225) as a function of the three
model-call outcomes.  The prompt construction (lines 93-134) only shapes
the request sent to the model and is absorbed into the outcomes; the
backoff sleeps (line 220) only affect timing.  The loop runs attempts 0, 1
and 2 and returns `null` when it falls off the end. -/
def generateLesson (j : String → Option RawPayload) (level : LanguageLevel)
    (o1 o2 o3 : ModelCallOutcome) : Option LessonContent :=
  match attemptStep j level o1 false with
  | some r => r
  | none =>
    match attemptStep j level o2 false with
    | some r => r
    | none =>
      match attemptStep j level o3 true with
      | some r => r
      | none => none

/-- Number of `ai.models.generateContent` calls a run of `generateLesson`
performs: every attempt that is entered makes its call first, so the count
is the index of the attempt whose step returned, plus one, and 3 when the
loop ran out. -/
def callCount (j : String → Option RawPayload) (level : LanguageLevel)
    (o1 o2 _o3 : ModelCallOutcome) : Nat :=
  match attemptStep j level o1 false with
  | some _ => 1
  | none =>
    match attemptStep j level o2 false with
    | some _ => 2
    | none => 3

/-- `evaluateWriting` (part_000 lines 227-251) as a function of the single
model-call outcome.  The prompt, student text and level only shape the
request and are absorbed into the outcome.  A transport error is caught
and mapped to the fixed apology string; a missing or empty `response.text`
is replaced through `||` by the fixed fallback string. -/
def evaluateWriting (o : ModelCallOutcome) : String :=
  match o with
  | .err => "Error generating feedback. Please try again."
  | .ok t =>
    match t with
    | none => "Could not generate feedback."
    | some s => if s = "" then "Could not generate feedback." else s

/-- The minimal valid payload named by the spec:
`{t:"Greetings", l:"A1", voc:[{de:"Hallo",en:"Hello",hi:"Namaste",ex:"Hallo!"}]}`. -/
def minimalRaw : RawPayload :=
  { t := some "Greetings"
    l := some "A1"
    voc := some [{ de := some "Hallo"
                   en := some "Hello"
                   hi := some "Namaste"
                   ex := some "Hallo!" }]
    txt := none
    txt_tr := none
    q := none
    wr := none
    pts := none
    lis := none }

/-- A payload that parses but has an empty vocabulary list, so the
validator rejects it while the mapper still maps it. -/
def noVocRaw : RawPayload :=
  { t := some "x"
    l := some "A1"
    voc := some []
    txt := none
    txt_tr := none
    q := none
    wr := none
    pts := none
    lis := none }

/-- A `JSON.parse` model in which every text parses to `minimalRaw`. -/
def jMin : String → Option RawPayload := fun _ => some minimalRaw

/-- A `JSON.parse` model in which every text parses to `noVocRaw`. -/
def jReject : String → Option RawPayload := fun _ => some noVocRaw

/-- A non-final iteration of the retry loop either moves on to the next
attempt or returns a mapped lesson; it never returns `null`. -/
theorem attemptStep_nonlast_cases (j : String → Option RawPayload)
    (level : LanguageLevel) (o : ModelCallOutcome) :
    attemptStep j level o false = none
    ∨ ∃ lc, attemptStep j level o false = some (some lc) := by
  cases o with
  | err => exact Or.inl rfl
  | ok t =>
    cases t with
    | none => exact Or.inl rfl
    | some s =>
      by_cases hs : s = ""
      · exact Or.inl (by simp [attemptStep, hs])
      · cases hj : j (cleanText s) with
        | none => exact Or.inl (by simp [attemptStep, hs, hj])
        | some raw =>
          by_cases hv : validateResponse raw level = true
          · exact Or.inr ⟨mapRawToLesson raw, by simp [attemptStep, hs, hj, hv]⟩
          · exact Or.inl (by simp [attemptStep, hs, hj, hv])

/-- A final attempt failed at the transport or parse layer: the call threw,
or the response carried no usable text, or `JSON.parse` threw on the
cleaned text. -/
def transportParseFailure (j : String → Option RawPayload) :
    ModelCallOutcome → Prop
  | .err => True
  | .ok none => True
  | .ok (some s) => s = "" ∨ j (cleanText s) = none

/-- C1 counterexample: the first attempt parses successfully (to a payload
the validator rejects) while the remaining two attempts raise transport
errors, and `generateLesson` still returns null, so a successful parse on
some attempt does not force a non-null result. -/
theorem generateLesson_null_despite_parsed_attempt :
    jReject (cleanText "x") = some noVocRaw
    ∧ generateLesson jReject LanguageLevel.A1
        (ModelCallOutcome.ok (some "x")) ModelCallOutcome.err ModelCallOutcome.err
      = none :=
  ⟨rfl, by decide⟩

/-- C1 (amended): `generateLesson` returns null only when the final (third)
attempt failed at the transport/parse layer, regardless of how earlier
attempts failed; and when all 3 attempts raise transport errors, the
result is null. -/
theorem generateLesson_null_only_final_transport :
    (∀ (j : String → Option RawPayload) (level : LanguageLevel)
        (o1 o2 o3 : ModelCallOutcome),
      generateLesson j level o1 o2 o3 = none → transportParseFailure j o3)
    ∧ ∀ (j : String → Option RawPayload) (level : LanguageLevel),
        generateLesson j level ModelCallOutcome.err ModelCallOutcome.err
          ModelCallOutcome.err = none := by
  constructor
  · intro j level o1 o2 o3 h
    rw [generateLesson] at h
    rcases attemptStep_nonlast_cases j level o1 with h1 | ⟨lc, h1⟩
    · rw [h1] at h
      rcases attemptStep_nonlast_cases j level o2 with h2 | ⟨lc, h2⟩
      · rw [h2] at h
        cases o3 with
        | err => trivial
        | ok t =>
          cases t with
          | none => trivial
          | some s =>
            by_cases hs : s = ""
            · exact Or.inl hs
            · cases hj : j (cleanText s) with
              | none => exact Or.inr hj
              | some raw =>
                simp only [attemptStep, hs, if_neg, hj] at h
                by_cases hv : validateResponse raw level = true <;>
                  simp [hv] at h
      · rw [h2] at h
        exact absurd h (by simp)
    · rw [h1] at h
      exact absurd h (by simp)
  · intro j level
    rfl

/-- C1 amended witness at a concrete run: all three attempts are transport
errors, the result is null, and the conclusion of the amended theorem holds
for the final attempt. -/
theorem generateLesson_null_only_final_transport_witness :
    transportParseFailure jReject ModelCallOutcome.err
    ∧ generateLesson jReject LanguageLevel.A1 ModelCallOutcome.err
        ModelCallOutcome.err ModelCallOutcome.err = none :=
  ⟨generateLesson_null_only_final_transport.1 jReject LanguageLevel.A1
      (ModelCallOutcome.ok (some "x")) ModelCallOutcome.err ModelCallOutcome.err
      (by decide),
    generateLesson_null_only_final_transport.2 jReject LanguageLevel.A1⟩

/-- C2: when every attempt yields a payload that parses but is rejected by
the validator, `generateLesson` degrades and returns the mapped payload of
the third attempt instead of null. -/
theorem generateLesson_degrades_on_validation_exhaustion
    (j : String → Option RawPayload) (level : LanguageLevel)
    (s1 s2 s3 : String) (r1 r2 r3 : RawPayload)
    (h1 : s1 ≠ "") (hp1 : j (cleanText s1) = some r1)
    (hv1 : validateResponse r1 level = false)
    (h2 : s2 ≠ "") (hp2 : j (cleanText s2) = some r2)
    (hv2 : validateResponse r2 level = false)
    (h3 : s3 ≠ "") (hp3 : j (cleanText s3) = some r3)
    (hv3 : validateResponse r3 level = false) :
    generateLesson j level (ModelCallOutcome.ok (some s1))
      (ModelCallOutcome.ok (some s2)) (ModelCallOutcome.ok (some s3))
      = some (mapRawToLesson r3) := by
  simp [generateLesson, attemptStep, h1, hp1, hv1, h2, hp2, hv2, h3, hp3, hv3]

/-- C2 witness: a concrete run of three parseable but rejected payloads
returns the mapped third payload. -/
theorem generateLesson_degrades_on_validation_exhaustion_witness :
    generateLesson jReject LanguageLevel.A1 (ModelCallOutcome.ok (some "x"))
      (ModelCallOutcome.ok (some "x")) (ModelCallOutcome.ok (some "x"))
      = some (mapRawToLesson noVocRaw) :=
  generateLesson_degrades_on_validation_exhaustion jReject LanguageLevel.A1
    "x" "x" "x" noVocRaw noVocRaw noVocRaw
    (by decide) rfl (by decide) (by decide) rfl (by decide)
    (by decide) rfl (by decide)

/-- C3: `generateLesson` makes at most 3 model calls, and on a run with two
transport errors followed by a parseable, valid payload it makes exactly 3
calls and returns the mapped success payload. -/
theorem generateLesson_retry_budget :
    (∀ (j : String → Option RawPayload) (level : LanguageLevel)
        (o1 o2 o3 : ModelCallOutcome),
      callCount j level o1 o2 o3 ≤ 3)
    ∧ ∀ (j : String → Option RawPayload) (level : LanguageLevel)
        (s : String) (r : RawPayload),
      s ≠ "" → j (cleanText s) = some r → validateResponse r level = true →
      callCount j level ModelCallOutcome.err ModelCallOutcome.err
          (ModelCallOutcome.ok (some s)) = 3
      ∧ generateLesson j level ModelCallOutcome.err ModelCallOutcome.err
          (ModelCallOutcome.ok (some s)) = some (mapRawToLesson r) := by
  constructor
  · intro j level o1 o2 o3
    rw [callCount]
    split
    · decide
    · split
      · decide
      · decide
  · intro j level s r hs hj hv
    refine ⟨rfl, ?_⟩
    simp [generateLesson, attemptStep, hs, hj, hv]

/-- C3 witness: concrete run with two transport errors and then a payload
that parses to `minimalRaw` and passes validation. -/
theorem generateLesson_retry_budget_witness :
    callCount jMin LanguageLevel.A1 ModelCallOutcome.err ModelCallOutcome.err
        (ModelCallOutcome.ok (some "x")) = 3
    ∧ generateLesson jMin LanguageLevel.A1 ModelCallOutcome.err
        ModelCallOutcome.err (ModelCallOutcome.ok (some "x"))
      = some (mapRawToLesson minimalRaw) :=
  generateLesson_retry_budget.2 jMin LanguageLevel.A1 "x" minimalRaw
    (by decide) rfl (by decide)

/-- C4 counterexample: on the minimal valid payload the mapper emits
`readingQuestions` as a present empty array, not as an absent/undefined
field, refuting the claim that every optional field is absent. -/
theorem mapRawToLesson_minimal_readingQuestions_present :
    (mapRawToLesson minimalRaw).readingQuestions = some []
    ∧ (mapRawToLesson minimalRaw).readingQuestions ≠ none :=
  ⟨rfl, by decide⟩

/-- C4 (amended): on the minimal valid payload the mapper returns
topic `Greetings`, level `A1`, exactly one fully renamed vocabulary entry,
absent `readingText`, `readingTextTranslation`, `writingPrompt`,
`writingPoints` and `listeningScenario`, and `readingQuestions` present as
an empty array. -/
theorem mapRawToLesson_minimal_eval :
    mapRawToLesson minimalRaw =
      { topic := "Greetings"
        level := "A1"
        vocabulary := [{ german := some "Hallo"
                         englishExplanation := some "Hello"
                         hindiTranslation := some "Namaste"
                         exampleSentence := some "Hallo!" }]
        readingText := none
        readingTextTranslation := none
        readingQuestions := some []
        writingPrompt := none
        writingPoints := none
        listeningScenario := none } := rfl

/-- C6: a payload whose vocabulary field is absent or empty is rejected by
`validateResponse` at every level, whatever the other fields hold. -/
theorem validateResponse_rejects_missing_vocabulary
    (raw : RawPayload) (level : LanguageLevel)
    (h : raw.voc = none ∨ raw.voc = some []) :
    validateResponse raw level = false := by
  rw [validateResponse]
  rcases h with h | h <;> rw [h] <;> simp [vocCheck]

/-- C6 witness: the concrete empty-vocabulary payload is rejected. -/
theorem validateResponse_rejects_missing_vocabulary_witness :
    validateResponse noVocRaw LanguageLevel.A1 = false :=
  validateResponse_rejects_missing_vocabulary noVocRaw LanguageLevel.A1
    (Or.inr rfl)

/-- C9: `evaluateWriting` always returns a string: the response text itself
when the call succeeds with non-empty text, the fixed apology string on a
transport error, and the fixed fallback string on missing or empty text. -/
theorem evaluateWriting_total_fallback :
    (∀ s : String, s ≠ "" → evaluateWriting (ModelCallOutcome.ok (some s)) = s)
    ∧ evaluateWriting ModelCallOutcome.err
        = "Error generating feedback. Please try again."
    ∧ evaluateWriting (ModelCallOutcome.ok none) = "Could not generate feedback."
    ∧ evaluateWriting (ModelCallOutcome.ok (some ""))
        = "Could not generate feedback." := by
  refine ⟨fun s hs => ?_, rfl, rfl, rfl⟩
  simp [evaluateWriting, hs]

/-- C9 witness: a concrete successful call returns its own text. -/
theorem evaluateWriting_total_fallback_witness :
    evaluateWriting (ModelCallOutcome.ok (some "Gut gemacht")) = "Gut gemacht" :=
  evaluateWriting_total_fallback.1 "Gut gemacht" (by decide)

/-- C10: three parseable attempts all rejected by the validator, the last
one with an empty vocabulary list, make `generateLesson` return a non-null
lesson whose vocabulary is the empty array. -/
theorem generateLesson_nonnull_empty_vocabulary :
    generateLesson jReject LanguageLevel.A1 (ModelCallOutcome.ok (some "x"))
        (ModelCallOutcome.ok (some "x")) (ModelCallOutcome.ok (some "x"))
      = some (mapRawToLesson noVocRaw)
    ∧ (mapRawToLesson noVocRaw).vocabulary = [] :=
  ⟨by decide, rfl⟩

/-- Writing a frequency entry for one word does not change the lookup of
a different word. -/
theorem freqLookup_write_ne (own : String → Option FreqVal) (y w : String)
    (v : FreqVal) (h : w ≠ y) :
    freqLookup (freqWrite own y v) w = freqLookup own w := by
  rw [freqWrite]
  by_cases hp : y = "__proto__"
  · rw [if_pos hp]
  · rw [if_neg hp]
    simp [freqLookup, h]

/-- If some word longer than 3 characters that is not an inherited
`Object.prototype` property name would be bumped to the numeric count
`k + 1` with `k` at most 8, while its remaining occurrences push the total
to at least 9, the repetition loop returns false. -/
theorem repetitionOk_false_of_count (ws : List String) :
    ∀ (own : String → Option FreqVal) (w : String) (k : Nat),
      3 < w.length → w ∉ objectProtoProps →
      freqBump (freqLookup own w) = FreqVal.num (k + 1) →
      k ≤ 8 → 9 ≤ k + ws.count w → repetitionOk own ws = false := by
  induction ws with
  | nil =>
    intro own w k _ _ _ hle hcount
    simp only [List.count_nil] at hcount
    omega
  | cons y ys ih =>
    intro own w k hlen hmem hk hle hcount
    simp only [List.count_cons, beq_iff_eq] at hcount
    simp only [repetitionOk]
    by_cases hwy : y = w
    · subst hwy
      rw [if_pos rfl] at hcount
      rw [if_pos hlen, hk]
      have hnp : y ≠ "__proto__" := by
        intro h
        apply hmem
        rw [h]
        decide
      rw [freqWrite, if_neg hnp]
      have hlook2 :
          freqLookup (fun x => if x = y then some (FreqVal.num (k + 1)) else own x) y
            = some (FreqVal.num (k + 1)) := by
        simp [freqLookup]
      rw [hlook2]
      by_cases hk8 : 8 < k + 1
      · rw [if_pos (by simpa [freqAbove8] using hk8)]
      · rw [if_neg (by simp [freqAbove8]; omega)]
        refine ih _ y (k + 1) hlen hmem ?_ (by omega) (by omega)
        rw [hlook2]
        rfl
    · rw [if_neg hwy] at hcount
      by_cases hy : 3 < y.length
      · rw [if_pos hy]
        cases htrip : freqAbove8
            (freqLookup (freqWrite own y (freqBump (freqLookup own y))) y) with
        | true => rfl
        | false =>
          rw [if_neg Bool.false_ne_true]
          refine ih _ w k hlen hmem ?_ hle (by omega)
          rw [freqLookup_write_ne own y w _ fun h => hwy h.symm]
          exact hk
      · rw [if_neg hy]
        exact ih own w k hlen hmem hk hle (by omega)

/-- A reading text repeating the four-character word `wort` exactly 8
times, the accepted boundary of the repetition rule. -/
def wortText : String := "wort wort wort wort wort wort wort wort"

/-- The boundary payload: reading text with `wort` exactly 8 times and a
non-empty vocabulary, so every validator rule is satisfied. -/
def repeatEightRaw : RawPayload :=
  { t := some "x"
    l := some "A1"
    voc := some [{ de := some "Hallo"
                   en := some "Hello"
                   hi := some "Namaste"
                   ex := some "Hallo!" }]
    txt := some wortText
    txt_tr := none
    q := none
    wr := none
    pts := none
    lis := none }

/-- A reading text repeating `wort` 9 times, just past the boundary. -/
def wortNineText : String := wortText ++ " wort"

/-- The rejected boundary payload: same as `repeatEightRaw` but with the
word `wort` occurring 9 times in the reading text. -/
def repeatNineRaw : RawPayload :=
  { repeatEightRaw with txt := some wortNineText }

/-- Nine occurrences of the word `constructor`, which is an inherited
`Object.prototype` property name and therefore invisible to the repetition
check of the source. -/
def ctorNineText : String :=
  "constructor constructor constructor constructor constructor constructor constructor constructor constructor"

/-- A payload whose reading text repeats `constructor` 9 times and whose
other fields satisfy every validator rule. -/
def ctorNineRaw : RawPayload :=
  { repeatEightRaw with txt := some ctorNineText }

/-- C5 counterexample: a payload repeating the 11-character word
`constructor` 9 times is accepted by `validateResponse`, because the fresh
object literal behind the frequency table inherits a truthy `constructor`
member from `Object.prototype`, the bumped value is then a string, and its
comparison with 8 is false; so a 4+-character word occurring 9 or more
times does not force rejection as the claim states. -/
theorem validateResponse_accepts_repeated_constructor :
    ctorNineRaw.txt = some ctorNineText
    ∧ 3 < String.length "constructor"
    ∧ 9 ≤ (jsSplitWs (jsToLower ctorNineText)).count "constructor"
    ∧ validateResponse ctorNineRaw LanguageLevel.B1 = true :=
  ⟨rfl, by decide, by decide, by decide⟩

/-- C5 (amended): any payload whose lowercased, whitespace-split reading
text contains a word longer than 3 characters that is not an inherited
`Object.prototype` property name at least 9 times is rejected at every
level; the concrete boundary payload with `wort` exactly 8 times is
accepted at every level. -/
theorem validateResponse_repetition_boundary :
    (∀ (raw : RawPayload) (level : LanguageLevel) (txt w : String),
      raw.txt = some txt → 3 < w.length → w ∉ objectProtoProps →
      9 ≤ (jsSplitWs (jsToLower txt)).count w →
      validateResponse raw level = false)
    ∧ (jsSplitWs (jsToLower wortText)).count "wort" = 8
    ∧ ∀ level : LanguageLevel, validateResponse repeatEightRaw level = true := by
  refine ⟨?_, by decide, ?_⟩
  · intro raw level txt w htxt hlen hmem hcount
    rw [validateResponse, htxt]
    by_cases he : txt = ""
    · subst he
      have hc := List.count_le_length w (jsSplitWs (jsToLower ""))
      rw [show (jsSplitWs (jsToLower "")).length = 1 from rfl] at hc
      omega
    · simp only [txtCheck]
      rw [if_neg he]
      by_cases hlt : maxWords level < (jsSplitWs txt).length
      · rw [if_pos hlt]
        rfl
      · rw [if_neg hlt]
        rw [repetitionOk_false_of_count (jsSplitWs (jsToLower txt)) (fun _ => none)
          w 0 hlen hmem (by simp [freqLookup, freqBump, hmem]) (by omega)
          (by simpa using hcount)]
        rfl
  · intro level
    cases level <;> decide

/-- C5 witness: the payload with `wort` 9 times is rejected through the
universal part of the boundary theorem, and the 8-times payload is
accepted through its concrete part. -/
theorem validateResponse_repetition_boundary_witness :
    validateResponse repeatNineRaw LanguageLevel.B1 = false
    ∧ validateResponse repeatEightRaw LanguageLevel.B1 = true :=
  ⟨validateResponse_repetition_boundary.1 repeatNineRaw LanguageLevel.B1
      wortNineText "wort" rfl (by decide) (by decide) (by decide),
    validateResponse_repetition_boundary.2.2 LanguageLevel.B1⟩

/-- A reading text of exactly n+1 copies of the two-character word `ab`
separated by single spaces. -/
def abWords : Nat → String
  | 0 => "ab"
  | n + 1 => "ab " ++ abWords n

/-- A payload whose reading text has 61 whitespace-separated words, above
the A0 ceiling of 60 and below the 150 ceiling of the other levels. -/
def midLengthRaw : RawPayload :=
  { repeatEightRaw with txt := some (abWords 60) }

/-- C7: the validator ceiling is level-dependent: any payload whose
whitespace-split reading-text word count passes the level ceiling is
rejected, the A0 ceiling is strictly below the ceiling of every other
level, and a concrete 61-word text is rejected at A0 while accepted at
A1, A2 and B1. -/
theorem validateResponse_level_ceiling :
    (∀ (raw : RawPayload) (level : LanguageLevel) (txt : String),
      raw.txt = some txt → txt ≠ "" →
      maxWords level < (jsSplitWs txt).length →
      validateResponse raw level = false)
    ∧ (∀ level : LanguageLevel, level ≠ LanguageLevel.A0 →
        maxWords LanguageLevel.A0 < maxWords level)
    ∧ (jsSplitWs (abWords 60)).length = 61
    ∧ validateResponse midLengthRaw LanguageLevel.A0 = false
    ∧ validateResponse midLengthRaw LanguageLevel.A1 = true
    ∧ validateResponse midLengthRaw LanguageLevel.A2 = true
    ∧ validateResponse midLengthRaw LanguageLevel.B1 = true := by
  refine ⟨?_, ?_, by decide, by decide, by decide, by decide, by decide⟩
  · intro raw level txt htxt hne hlt
    rw [validateResponse, htxt]
    simp only [txtCheck]
    rw [if_neg hne, if_pos hlt]
    rfl
  · intro level h
    cases level
    · exact absurd rfl h
    · decide
    · decide
    · decide

/-- C7 witness: the A0 ceiling is below the A1 ceiling, and the 61-word
payload is rejected at A0 through the universal part of the theorem. -/
theorem validateResponse_level_ceiling_witness :
    maxWords LanguageLevel.A0 < maxWords LanguageLevel.A1
    ∧ validateResponse midLengthRaw LanguageLevel.A0 = false :=
  ⟨validateResponse_level_ceiling.2.1 LanguageLevel.A1 (by decide),
    validateResponse_level_ceiling.1 midLengthRaw LanguageLevel.A0 (abWords 60)
      rfl (by decide) (by decide)⟩

/-- The backtick is not whitespace. -/
theorem ws_bq : Char.isWhitespace bq = false := by decide

/-- Dropping leading whitespace keeps a list headed by a backtick. -/
theorem dropWhile_ws_bq_cons (t : List Char) :
    (bq :: t).dropWhile Char.isWhitespace = bq :: t := by
  rw [List.dropWhile_cons, if_neg]
  simp [ws_bq]

/-- Dropping trailing whitespace keeps a list that ends with the fence. -/
theorem dropTrailingWs_append_fence (cs : List Char) :
    dropTrailingWs (cs ++ fence) = cs ++ fence := by
  unfold dropTrailingWs
  rw [List.reverse_append]
  have h1 : (fence.reverse ++ cs.reverse : List Char)
      = bq :: ([bq, bq] ++ cs.reverse) := rfl
  rw [h1, dropWhile_ws_bq_cons, ← h1, ← List.reverse_append, List.reverse_reverse]

/-- Trimming keeps a backtick-headed list that ends with the fence. -/
theorem trimChars_bq_fence (p : List Char) :
    trimChars ((bq :: p) ++ fence) = (bq :: p) ++ fence := by
  unfold trimChars
  rw [show ((bq :: p) ++ fence : List Char) = bq :: (p ++ fence) from rfl]
  rw [dropWhile_ws_bq_cons]
  rw [show (bq :: (p ++ fence) : List Char) = (bq :: p) ++ fence from rfl]
  exact dropTrailingWs_append_fence _

/-- Appending a newline to a list with no trailing whitespace and then
dropping trailing whitespace gives the list back. -/
theorem dropTrailingWs_append_newline (doc : List Char)
    (h : dropTrailingWs doc = doc) :
    dropTrailingWs (doc ++ ['\n']) = doc := by
  have hrev : doc.reverse.dropWhile Char.isWhitespace = doc.reverse := by
    have hcr := congrArg List.reverse h
    rwa [dropTrailingWs, List.reverse_reverse] at hcr
  unfold dropTrailingWs
  rw [List.reverse_append]
  rw [show ((['\n'] : List Char).reverse ++ doc.reverse : List Char)
    = '\n' :: doc.reverse from rfl]
  rw [List.dropWhile_cons, if_pos (by decide), hrev, List.reverse_reverse]

/-- Stripping the trailing fence from `doc ++ newline ++ fence` recovers
`doc` when `doc` has no trailing whitespace. -/
theorem stripTrailingFence_wrapped (doc : List Char)
    (h : dropTrailingWs doc = doc) :
    stripTrailingFence (doc ++ '\n' :: fence) = doc := by
  have hsuf : List.isSuffixOf fence (doc ++ '\n' :: fence) = true :=
    List.isSuffixOf_iff_suffix.mpr ⟨doc ++ ['\n'], by simp⟩
  rw [stripTrailingFence, if_pos hsuf]
  have hlen : (doc ++ '\n' :: fence).length = doc.length + 4 := by
    simp [fence]
  rw [hlen]
  rw [show doc.length + 4 - 3 = doc.length + 1 from by omega]
  rw [List.take_append_eq_append_take]
  rw [List.take_of_length_le (by omega)]
  rw [show doc.length + 1 - doc.length = 1 from by omega]
  rw [show (('\n' :: fence : List Char)).take 1 = ['\n'] from rfl]
  exact dropTrailingWs_append_newline doc h

/-- A list equal to its own leading-whitespace drop has a head that is not
whitespace. -/
theorem head_not_ws (d : Char) (ds : List Char)
    (h : (d :: ds).dropWhile Char.isWhitespace = d :: ds) :
    Char.isWhitespace d = false := by
  cases hw : Char.isWhitespace d with
  | false => rfl
  | true =>
    rw [List.dropWhile_cons, if_pos hw] at h
    have hle : (ds.dropWhile Char.isWhitespace).length ≤ ds.length :=
      (List.dropWhile_sublist Char.isWhitespace).length_le
    rw [h, List.length_cons] at hle
    omega

/-- Dropping leading whitespace keeps an append headed by a character that
is not whitespace. -/
theorem dropWhile_ws_append_of_head (d : Char) (ds rest : List Char)
    (hd : Char.isWhitespace d = false) :
    ((d :: ds) ++ rest).dropWhile Char.isWhitespace = (d :: ds) ++ rest := by
  rw [List.cons_append, List.dropWhile_cons, if_neg]
  simp [hd]

/-- C8: wrapping a fully trimmed document that does not itself start with a
fence in a fenced code block, with or without the `json` language tag,
leaves the cleaned text unchanged, so `JSON.parse` sees the same input; in
particular the concrete fenced and bare documents of the spec parse to the
same raw object under every parse function. -/
theorem cleanText_fence_equivalence :
    (∀ doc : List Char,
      doc.dropWhile Char.isWhitespace = doc →
      dropTrailingWs doc = doc →
      List.isPrefixOf fence doc = false →
      cleanTextChars (fenceJson ++ '\n' :: (doc ++ '\n' :: fence))
          = cleanTextChars doc
      ∧ cleanTextChars (fence ++ '\n' :: (doc ++ '\n' :: fence))
          = cleanTextChars doc)
    ∧ ∀ j : String → Option RawPayload,
        j (cleanText "```json\n\x7b\"t\":\"x\"\x7d\n```")
          = j (cleanText "\x7b\"t\":\"x\"\x7d") := by
  constructor
  · intro doc h1 h2 h3
    have hdoc : cleanTextChars doc = doc := by
      have htrim : trimChars doc = doc := by
        rw [trimChars, h1, h2]
      have hpj : List.isPrefixOf fenceJson doc = false := by
        cases hp : List.isPrefixOf fenceJson doc with
        | false => rfl
        | true =>
          exfalso
          have h4 : fenceJson <+: doc := List.isPrefixOf_iff_prefix.mp hp
          have h5 : fence <+: fenceJson := ⟨['j', 's', 'o', 'n'], rfl⟩
          have h6 : List.isPrefixOf fence doc = true :=
            List.isPrefixOf_iff_prefix.mpr (h5.trans h4)
          rw [h3] at h6
          exact Bool.false_ne_true h6
      simp only [cleanTextChars, htrim, hpj, h3, Bool.false_eq_true, if_false]
    cases doc with
    | nil => exact ⟨by decide, by decide⟩
    | cons d ds =>
      have hd : Char.isWhitespace d = false := head_not_ws d ds h1
      constructor
      · have hW : fenceJson ++ '\n' :: ((d :: ds) ++ '\n' :: fence)
            = (bq :: ([bq, bq, 'j', 's', 'o', 'n']
                ++ ('\n' :: ((d :: ds) ++ ['\n'])))) ++ fence := by
          simp [fenceJson, fence]
        have htrimW : trimChars (fenceJson ++ '\n' :: ((d :: ds) ++ '\n' :: fence))
            = fenceJson ++ '\n' :: ((d :: ds) ++ '\n' :: fence) := by
          rw [hW]
          exact trimChars_bq_fence _
        have hpref : List.isPrefixOf fenceJson
            (fenceJson ++ '\n' :: ((d :: ds) ++ '\n' :: fence)) = true := rfl
        rw [hdoc]
        simp only [cleanTextChars, htrimW]
        rw [if_pos hpref]
        rw [show (fenceJson ++ '\n' :: ((d :: ds) ++ '\n' :: fence)).drop 7
          = '\n' :: ((d :: ds) ++ '\n' :: fence) from rfl]
        rw [List.dropWhile_cons, if_pos (by decide)]
        rw [dropWhile_ws_append_of_head d ds ('\n' :: fence) hd]
        exact stripTrailingFence_wrapped (d :: ds) h2
      · have hW : fence ++ '\n' :: ((d :: ds) ++ '\n' :: fence)
            = (bq :: ([bq, bq] ++ ('\n' :: ((d :: ds) ++ ['\n'])))) ++ fence := by
          simp [fence]
        have htrimW : trimChars (fence ++ '\n' :: ((d :: ds) ++ '\n' :: fence))
            = fence ++ '\n' :: ((d :: ds) ++ '\n' :: fence) := by
          rw [hW]
          exact trimChars_bq_fence _
        have hpj : List.isPrefixOf fenceJson
            (fence ++ '\n' :: ((d :: ds) ++ '\n' :: fence)) = false := rfl
        have hpref : List.isPrefixOf fence
            (fence ++ '\n' :: ((d :: ds) ++ '\n' :: fence)) = true := rfl
        rw [hdoc]
        simp only [cleanTextChars, htrimW, hpj, Bool.false_eq_true, if_false]
        rw [if_pos hpref]
        rw [show (fence ++ '\n' :: ((d :: ds) ++ '\n' :: fence)).drop 3
          = '\n' :: ((d :: ds) ++ '\n' :: fence) from rfl]
        rw [List.dropWhile_cons, if_pos (by decide)]
        rw [dropWhile_ws_append_of_head d ds ('\n' :: fence) hd]
        exact stripTrailingFence_wrapped (d :: ds) h2
  · intro j
    exact congrArg j (by decide)

/-- C8 witness: a concrete two-character document wrapped in tagged and
untagged fences cleans to the same text as the bare document. -/
theorem cleanText_fence_equivalence_witness :
    cleanTextChars (fenceJson ++ '\n' :: (['a', 'b'] ++ '\n' :: fence))
        = cleanTextChars ['a', 'b']
    ∧ cleanTextChars (fence ++ '\n' :: (['a', 'b'] ++ '\n' :: fence))
        = cleanTextChars ['a', 'b'] :=
  cleanText_fence_equivalence.1 ['a', 'b'] (by decide) (by decide) (by decide)

end DeutschCoach
